import Mathlib

/-!
Shallow embedding of the sandbox lifecycle-management subsystem:

* `DaytonaSandboxProvider` — the pooled provider
  (`src/backend/src/community/daytona_sandbox/daytona_sandbox_provider.py`):
  thread-affinity reuse, per-user quota, release, idle-sweep gating.
* `DaytonaSandbox` — the per-sandbox handle
  (`src/backend/src/community/daytona_sandbox/daytona_sandbox.py`):
  `execute_command`, `read_file`, `write_file`.
* `Provisioner` — the cluster orchestrator
  (`src/docker/provisioner/app.py`): `create_sandbox`, `destroy_sandbox`,
  `list_sandboxes` over a Pod/Service resource store.

Python dicts are modelled as association lists, Python sets as duplicate-free
lists, Python strings (where their content matters) as `List Char`, and the
external backends (Daytona API, Kubernetes API server) as explicit outcome
parameters supplied to each operation.
-/

/-- Association-list lookup, modelling Python `dict.get` / `in`. -/
def alookup {α : Type} : List (String × α) → String → Option α
  | [], _ => none
  | (k', v) :: rest, k => if k' = k then some v else alookup rest k

/-- Association-list insert/update, modelling Python `d[k] = v`. -/
def ainsert {α : Type} : List (String × α) → String → α → List (String × α)
  | [], k, v => [(k, v)]
  | (k', v') :: rest, k, v =>
    if k' = k then (k, v) :: rest else (k', v') :: ainsert rest k v

/-- Association-list removal, modelling Python `d.pop(k, None)` / `del d[k]`. -/
def aerase {α : Type} : List (String × α) → String → List (String × α)
  | [], _ => []
  | (k', v') :: rest, k =>
    if k' = k then aerase rest k else (k', v') :: aerase rest k

/-- The keys of an association list. -/
def akeys {α : Type} (m : List (String × α)) : List String := m.map (·.1)

/-- Number of entries stored under key `k`. -/
def countKey {α : Type} (m : List (String × α)) (k : String) : Nat :=
  (m.filter (fun p => p.1 = k)).length

/-- Association-list in-place value update at a key (all entries with that
key), leaving keys and every other entry unchanged. -/
def aupdate {α : Type} : List (String × α) → String → (α → α) → List (String × α)
  | [], _, _ => []
  | (k', v) :: rest, k, g =>
    if k' = k then (k', g v) :: aupdate rest k g
    else (k', v) :: aupdate rest k g

/-- Python `set.add`: append the element unless already present. -/
def setAdd (l : List String) (x : String) : List String :=
  if x ∈ l then l else l ++ [x]

namespace DaytonaSandboxProvider

/-- The four guarded maps of `DaytonaSandboxProvider.__init__`:
`_sandboxes` (sandbox_id → handle, the handle abstracted to a `Nat` token),
`_thread_sandboxes` (thread_id → sandbox_id),
`_last_activity` (sandbox_id → timestamp) and
`_user_sandboxes` (user_id → set of sandbox_ids). -/
structure ProviderState where
  sandboxes : List (String × Nat)
  threadSandboxes : List (String × String)
  lastActivity : List (String × Nat)
  userSandboxes : List (String × List String)
deriving DecidableEq, Repr

/-- The empty pool, as built by `__init__`. -/
def ProviderState.initial : ProviderState := ⟨[], [], [], []⟩

/-- Result of one `acquire` call. -/
inductive AcquireResult
  | reused (sandboxId : String)
  | created (sandboxId : String)
  | quotaExceeded (userId : String)
  | createFailed (msg : String)
deriving DecidableEq, Repr

/-- Observable outcome of one `acquire` call: the returned value (or raised
error), the post state, and whether the backend create call or the quota
check were performed. -/
structure AcquireOutcome where
  result : AcquireResult
  state : ProviderState
  backendCreateCalled : Bool
  quotaChecked : Bool
deriving DecidableEq, Repr

/-- Python `len(self._user_sandboxes.get(user_id, set()))`. -/
def userCount (st : ProviderState) (userId : String) : Nat :=
  ((alookup st.userSandboxes userId).getD []).length

/-- The map updates performed under the lock after a successful backend
create (`acquire`, lines 178–184 of the provider). -/
def registerNew (st : ProviderState) (threadId userId : Option String)
    (now : Nat) (sid : String) : ProviderState :=
  { sandboxes := ainsert st.sandboxes sid 0
    threadSandboxes :=
      match threadId with
      | some tid => ainsert st.threadSandboxes tid sid
      | none => st.threadSandboxes
    lastActivity := ainsert st.lastActivity sid now
    userSandboxes :=
      match userId with
      | some uid =>
        ainsert st.userSandboxes uid
          (setAdd ((alookup st.userSandboxes uid).getD []) sid)
      | none => st.userSandboxes }

/-- The tail of `acquire` once the fast path and the quota check are passed:
call the backend (`self._daytona.create`), and on success register the new
sandbox in all maps; on failure wrap and propagate with no registration. -/
def proceedCreate (st : ProviderState) (threadId userId : Option String)
    (now : Nat) (backendCreate : Except String String) (quotaChecked : Bool) :
    AcquireOutcome :=
  match backendCreate with
  | .error e =>
    { result := .createFailed e, state := st
      backendCreateCalled := true, quotaChecked := quotaChecked }
  | .ok sid =>
    { result := .created sid
      state := registerNew st threadId userId now sid
      backendCreateCalled := true, quotaChecked := quotaChecked }

/-- The `for uid, sids in list(self._user_sandboxes.items())` loop of
`release`: discard the id from each user's set and delete entries whose set
becomes empty. -/
def releaseUserSets : List (String × List String) → String → List (String × List String)
  | [], _ => []
  | (uid, sids) :: rest, sid =>
    let sids' := sids.filter (fun s => s ≠ sid)
    if sids'.isEmpty then releaseUserSets rest sid
    else (uid, sids') :: releaseUserSets rest sid

/-- The fast path of `acquire` (lines 141–148): the sandbox to reuse, when
`thread_id` is given, mapped by ThreadAffinity, and the mapped sandbox is
still live. -/
def fastHit (st : ProviderState) (threadId : Option String) : Option String :=
  match threadId with
  | none => none
  | some tid =>
    match alookup st.threadSandboxes tid with
    | none => none
    | some sid => if (alookup st.sandboxes sid).isSome then some sid else none

/-- Models `DaytonaSandboxProvider.acquire(thread_id, user_id)`.

`maxPerUser` is `self._max_per_user`, `now` the current `time.time()`, and
`backendCreate` the outcome the Daytona API would give were it called. -/
def acquire (st : ProviderState) (threadId userId : Option String)
    (maxPerUser : Nat) (now : Nat) (backendCreate : Except String String) :
    AcquireOutcome :=
  match fastHit st threadId with
  | some sid =>
    { result := .reused sid
      state := { st with lastActivity := ainsert st.lastActivity sid now }
      backendCreateCalled := false, quotaChecked := false }
  | none =>
    match userId with
    | some uid =>
      if 0 < maxPerUser then
        if maxPerUser ≤ userCount st uid then
          { result := .quotaExceeded uid, state := st
            backendCreateCalled := false, quotaChecked := true }
        else proceedCreate st threadId userId now backendCreate true
      else proceedCreate st threadId userId now backendCreate false
    | none => proceedCreate st threadId userId now backendCreate false

/-- Models `DaytonaSandboxProvider.get(sandbox_id)`: lookup, bumping
`_last_activity` on a hit; `none` (not an error) when absent. -/
def get (st : ProviderState) (sandboxId : String) (now : Nat) :
    Option Nat × ProviderState :=
  match alookup st.sandboxes sandboxId with
  | some h => (some h, { st with lastActivity := ainsert st.lastActivity sandboxId now })
  | none => (none, st)

/-- Models `DaytonaSandboxProvider.release(sandbox_id)`: under the lock, pop the
sandbox, drop every thread-affinity entry whose value is the id, drop its
last-activity entry, and discard the id from every user set (deleting sets
that become empty); then, outside the lock, attempt the backend delete only
when the sandbox was found, swallowing any failure (`backendDeleteOk` is the
would-be outcome of that call and never influences the state).  Returns the
post state and whether the backend delete was attempted. -/
def release (st : ProviderState) (sandboxId : String)
    (backendDeleteOk : Bool) : ProviderState × Bool :=
  let _ := backendDeleteOk
  let found := (alookup st.sandboxes sandboxId).isSome
  ({ sandboxes := aerase st.sandboxes sandboxId
     threadSandboxes := st.threadSandboxes.filter (fun p => p.2 ≠ sandboxId)
     lastActivity := aerase st.lastActivity sandboxId
     userSandboxes := releaseUserSets st.userSandboxes sandboxId },
   found)

/-- Module constant `DEFAULT_AUTO_STOP = 15` minutes. -/
def DEFAULT_AUTO_STOP : Int := 15

/-- The `idle_timeout` entry computed by `_load_config`:
`getattr(sandbox_cfg, "idle_timeout", None) or DEFAULT_AUTO_STOP * 60`.
`configured = none` models a missing/None attribute; a configured `0` is
falsy in Python, so `or` replaces it by the default as well. -/
def resolveIdleTimeout (configured : Option Int) : Int :=
  match configured with
  | none => DEFAULT_AUTO_STOP * 60
  | some v => if v = 0 then DEFAULT_AUTO_STOP * 60 else v

/-- Per `__init__` lines 86–88, the idle-checker thread is started iff the
resolved `idle_timeout` is positive. -/
def idleCheckerStarted (configured : Option Int) : Bool :=
  decide (0 < resolveIdleTimeout configured)

/-- Well-formedness of the pool state, maintained by every operation:
dict keys are unique, every id referenced by the affinity / activity / quota
maps is live, and no user set is empty. -/
structure WF (st : ProviderState) : Prop where
  sandboxKeysNodup : (akeys st.sandboxes).Nodup
  threadKeysNodup : (akeys st.threadSandboxes).Nodup
  activityKeysNodup : (akeys st.lastActivity).Nodup
  userKeysNodup : (akeys st.userSandboxes).Nodup
  threadLive : ∀ p ∈ st.threadSandboxes, (alookup st.sandboxes p.2).isSome = true
  activityLive : ∀ p ∈ st.lastActivity, (alookup st.sandboxes p.1).isSome = true
  userNonempty : ∀ p ∈ st.userSandboxes, p.2.isEmpty = false
  userLive : ∀ p ∈ st.userSandboxes, ∀ s ∈ p.2, (alookup st.sandboxes s).isSome = true

end DaytonaSandboxProvider

namespace DaytonaSandbox

/-!
`DaytonaSandbox` (`daytona_sandbox.py`) wraps one remote sandbox.  The
remote SDK calls are modelled as explicit outcome parameters
(`Except` = the call raised / returned), and Python string content as
`List Char`.
-/

/-- The response of `self._sandbox.process.exec`: `result` (possibly `None`)
and `exit_code`. -/
structure ExecResponse where
  result : Option (List Char)
  exitCode : Int
deriving DecidableEq, Repr

/-- Models `DaytonaSandbox.execute_command(command)`.  Here `call` is the outcome of the
remote `process.exec` call (`.error e` = the call raised with message `e`). -/
def execute_command (call : Except (List Char) ExecResponse) : List Char :=
  match call with
  | .error e => "Error: ".toList ++ e
  | .ok r =>
    let output := r.result.getD []
    let output :=
      if r.exitCode ≠ 0 then output ++ "\nExit Code: ".toList ++ (toString r.exitCode).toList
      else output
    if output.isEmpty then "(no output)".toList else output

/-- Models `DaytonaSandbox.read_file(path)`.  Here `download` is the outcome of
`fs.download_file` plus UTF-8 decoding. -/
def read_file (download : Except (List Char) (List Char)) : List Char :=
  match download with
  | .ok content => content
  | .error e => "Error: ".toList ++ e

/-- Models `DaytonaSandbox.write_file(path, content, append)`.  Here `download` is the
outcome the inner `read_file` would see; `uploadOk` whether `fs.upload_file`
succeeds.  Returns the uploaded content, or `.error` when the upload raises
(the exception is logged and re-raised). -/
def write_file (download : Except (List Char) (List Char)) (uploadOk : Bool)
    (content : List Char) (append : Bool) : Except (List Char) (List Char) :=
  let toUpload :=
    if append then
      let existing := read_file download
      if "Error:".toList.isPrefixOf existing then content else existing ++ content
    else content
  if uploadOk then .ok toUpload else .error "upload failed".toList

end DaytonaSandbox

namespace Provisioner

/-!
The cluster orchestrator (`src/docker/provisioner/app.py`).  The Kubernetes
resource store is a `ClusterState` (Pods and Services keyed by resource
name); the API server's nondeterministic behaviour (creation failures,
deletion failures, asynchronous NodePort allocation) is supplied through
explicit outcome parameters.  Every Service in the store is a sandbox
Service (they all carry the `app=deer-flow-sandbox` selector label the
`list` endpoint filters on).
-/

/-- One entry of `V1ServiceSpec.ports`: the port name, the port number, and
the scheduler-allocated `node_port` (absent until allocation happens). -/
structure PortSpec where
  name : String
  port : Nat
  nodePort : Option Nat
deriving DecidableEq, Repr

/-- The parts of a Service the orchestrator reads back: its `sandbox-id`
label and its ports. -/
structure SvcInfo where
  sandboxIdLabel : Option String
  ports : List PortSpec
deriving DecidableEq, Repr

/-- The parts of a Pod the orchestrator reads back: labels/annotations that
`_build_pod` set, and the scheduler-reported `status.phase` (absent until
the scheduler reports one). -/
structure PodInfo where
  threadId : String
  userId : Option String
  phase : Option String
deriving DecidableEq, Repr

/-- The cluster scheduler's resource store. -/
structure ClusterState where
  pods : List (String × PodInfo)
  services : List (String × SvcInfo)
deriving DecidableEq, Repr

/-- Models `_pod_name`. -/
def pod_name (sandboxId : String) : String := "sandbox-" ++ sandboxId

/-- Models `_svc_name`. -/
def svc_name (sandboxId : String) : String := "sandbox-" ++ sandboxId ++ "-svc"

/-- Module constant `NODE_HOST` (environment-overridable; the default). -/
def NODE_HOST : String := "host.docker.internal"

/-- Models `_sandbox_url(node_port)`. -/
def sandbox_url (nodePort : Nat) : String :=
  "http://" ++ NODE_HOST ++ ":" ++ toString nodePort

/-- Python truthiness of an `int | None` port value: `None` and `0` are
falsy. -/
def truthy : Option Nat → Bool
  | none => false
  | some n => n ≠ 0

/-- The `for port in svc.spec.ports: if port.name == "http": return
port.node_port` loop shared by `_get_node_port` and `list_sandboxes`. -/
def findHttpNodePort : List PortSpec → Option Nat
  | [] => none
  | p :: ps => if p.name = "http" then p.nodePort else findHttpNodePort ps

/-- Models `_get_node_port(sandbox_id)`: read the Service, return the `http`
port's `node_port`; any `ApiException` (e.g. Service absent) yields `None`. -/
def get_node_port (st : ClusterState) (sandboxId : String) : Option Nat :=
  match alookup st.services (svc_name sandboxId) with
  | none => none
  | some svc => findHttpNodePort svc.ports

/-- Models `_get_pod_phase(sandbox_id)`: the Pod's phase, `"Unknown"` when the
scheduler reported none, `"NotFound"` when the Pod does not exist. -/
def get_pod_phase (st : ClusterState) (sandboxId : String) : String :=
  match alookup st.pods (pod_name sandboxId) with
  | none => "NotFound"
  | some pod => pod.phase.getD "Unknown"

/-- Models `_build_pod`: the freshly created Pod as later read back (no phase
reported yet). -/
def build_pod (threadId : String) (userId : Option String) : PodInfo :=
  ⟨threadId, userId, none⟩

/-- Models `_build_service`: single `http` port 8080, `nodePort` omitted so the
scheduler auto-allocates it. -/
def build_service (sandboxId : String) : SvcInfo :=
  ⟨some sandboxId, [⟨"http", 8080, none⟩]⟩

/-- The `SandboxResponse` pydantic model. -/
structure SandboxResponse where
  sandbox_id : String
  sandbox_url : String
  status : String
deriving DecidableEq, Repr

/-- An `HTTPException(status_code, detail)`. -/
structure HttpError where
  status : Nat
  detail : String
deriving DecidableEq, Repr

/-- Outcome of a `create_namespaced_*` call: success, 409 AlreadyExists
(tolerated), or another `ApiException` with its reason. -/
inductive ApiOutcome
  | ok
  | conflict
  | failed (reason : String)
deriving DecidableEq, Repr

/-- Outcome of a `delete_namespaced_*` call on an existing resource. -/
inductive DelAttempt
  | ok
  | failed (reason : String)
deriving DecidableEq, Repr

/-- The API server's behaviour during one `create_sandbox` request:
outcomes of the Pod and Service create calls, whether a rollback delete
would succeed, and `observe i` = the `node_port` value the cluster exposes
at poll attempt `i`. -/
structure CreateEnv where
  podCreate : ApiOutcome
  svcCreate : ApiOutcome
  rollbackOk : Bool
  observe : Nat → Option Nat

/-- The `for _ in range(20): node_port = _get_node_port(...); if node_port:
break; time.sleep(0.5)` poll: first truthy observation wins, `none` after
the fuel (20 attempts) is exhausted. -/
def pollNodePort (observe : Nat → Option Nat) : Nat → Nat → Option Nat
  | _, 0 => none
  | i, fuel + 1 =>
    let p := observe i
    if truthy p then p else pollNodePort observe (i + 1) fuel

/-- The scheduler writing the allocated `node_port` into the Service's
`http` port (this is what a successful poll has just observed). -/
def setSvcNodePort (st : ClusterState) (sandboxId : String) (p : Nat) : ClusterState :=
  { st with
    services := aupdate st.services (svc_name sandboxId) (fun svc =>
      { svc with
        ports := svc.ports.map (fun pt =>
          if pt.name = "http" then { pt with nodePort := some p } else pt) }) }

/-- Models `POST /api/sandboxes` (`create_sandbox`). -/
def create_sandbox (st : ClusterState) (sandboxId threadId : String)
    (userId : Option String) (env : CreateEnv) :
    Except HttpError SandboxResponse × ClusterState :=
  let existing := get_node_port st sandboxId
  if truthy existing then
    (.ok ⟨sandboxId, sandbox_url (existing.getD 0), get_pod_phase st sandboxId⟩, st)
  else
    match env.podCreate with
    | .failed r => (.error ⟨500, "Pod creation failed: " ++ r⟩, st)
    | podRes =>
      let st1 :=
        if podRes = ApiOutcome.ok then
          { st with pods := ainsert st.pods (pod_name sandboxId) (build_pod threadId userId) }
        else st
      match env.svcCreate with
      | .failed r =>
        let st2 :=
          if env.rollbackOk then { st1 with pods := aerase st1.pods (pod_name sandboxId) }
          else st1
        (.error ⟨500, "Service creation failed: " ++ r⟩, st2)
      | svcRes =>
        let st2 :=
          if svcRes = ApiOutcome.ok then
            { st1 with services := ainsert st1.services (svc_name sandboxId) (build_service sandboxId) }
          else st1
        match pollNodePort env.observe 0 20 with
        | none => (.error ⟨500, "NodePort was not allocated in time"⟩, st2)
        | some p =>
          let st3 := setSvcNodePort st2 sandboxId p
          (.ok ⟨sandboxId, sandbox_url p, get_pod_phase st3 sandboxId⟩, st3)

/-- The `{"ok": True, "sandbox_id": ...}` response of `destroy_sandbox`. -/
structure DestroyResponse where
  ok : Bool
  sandbox_id : String
deriving DecidableEq, Repr

/-- Python `", ".join(errors)`. -/
def joinComma : List String → String
  | [] => ""
  | [s] => s
  | s :: rest => s ++ ", " ++ joinComma rest

/-- Models `DELETE /api/sandboxes/...` (`destroy_sandbox`): delete the
Service then the Pod; a 404 (resource absent) on either is silently
tolerated; other failures are collected and aggregated into one 500. -/
def destroy_sandbox (st : ClusterState) (sandboxId : String)
    (svcDel podDel : DelAttempt) :
    Except HttpError DestroyResponse × ClusterState :=
  let svcStep : List String × ClusterState :=
    match alookup st.services (svc_name sandboxId) with
    | none => ([], st)
    | some _ =>
      match svcDel with
      | .ok => ([], { st with services := aerase st.services (svc_name sandboxId) })
      | .failed r => (["service: " ++ r], st)
  let podStep : List String × ClusterState :=
    match alookup svcStep.2.pods (pod_name sandboxId) with
    | none => ([], svcStep.2)
    | some _ =>
      match podDel with
      | .ok => ([], { svcStep.2 with pods := aerase svcStep.2.pods (pod_name sandboxId) })
      | .failed r => (["pod: " ++ r], svcStep.2)
  let errors := svcStep.1 ++ podStep.1
  if errors.isEmpty then (.ok ⟨true, sandboxId⟩, podStep.2)
  else (.error ⟨500, "Partial cleanup: " ++ joinComma errors⟩, podStep.2)

/-- Models `GET /api/sandboxes` (`list_sandboxes`): every Service carrying a
`sandbox-id` label whose `http` port has a truthy `node_port`. -/
def list_sandboxes (st : ClusterState) : List SandboxResponse :=
  st.services.filterMap (fun q =>
    match q.2.sandboxIdLabel with
    | none => none
    | some sid =>
      match findHttpNodePort q.2.ports with
      | none => none
      | some np =>
        if np ≠ 0 then some ⟨sid, sandbox_url np, get_pod_phase st sid⟩ else none)

end Provisioner

/-! ### Association-list lemmas -/

theorem alookup_eq_none {α : Type} (m : List (String × α)) (k : String) :
    alookup m k = none ↔ ∀ p ∈ m, p.1 ≠ k := by
  induction m with
  | nil => simp [alookup]
  | cons q rest ih =>
    obtain ⟨k', v⟩ := q
    by_cases h : k' = k <;> simp [alookup, h, ih]

theorem alookup_mem {α : Type} {m : List (String × α)} {k : String} {v : α}
    (h : alookup m k = some v) : (k, v) ∈ m := by
  induction m with
  | nil => simp [alookup] at h
  | cons q rest ih =>
    obtain ⟨k', v'⟩ := q
    by_cases hk : k' = k
    · subst hk
      simp [alookup] at h
      subst h
      exact List.mem_cons_self _ _
    · simp [alookup, hk] at h
      exact List.mem_cons_of_mem _ (ih h)

theorem aerase_of_lookup_none {α : Type} {m : List (String × α)} {k : String}
    (h : alookup m k = none) : aerase m k = m := by
  induction m with
  | nil => rfl
  | cons q rest ih =>
    obtain ⟨k', v⟩ := q
    by_cases hk : k' = k
    · simp [alookup, hk] at h
    · simp [alookup, hk] at h
      simp [aerase, hk, ih h]

theorem ainsert_of_lookup_none {α : Type} {m : List (String × α)} {k : String}
    (v : α) (h : alookup m k = none) : ainsert m k v = m ++ [(k, v)] := by
  induction m with
  | nil => rfl
  | cons q rest ih =>
    obtain ⟨k', v'⟩ := q
    by_cases hk : k' = k
    · simp [alookup, hk] at h
    · simp [alookup, hk] at h
      simp [ainsert, hk, ih h]

theorem alookup_ainsert_self {α : Type} (m : List (String × α)) (k : String) (v : α) :
    alookup (ainsert m k v) k = some v := by
  induction m with
  | nil => simp [ainsert, alookup]
  | cons q rest ih =>
    obtain ⟨k', v'⟩ := q
    by_cases hk : k' = k
    · simp [ainsert, hk, alookup]
    · simp [ainsert, hk, alookup, ih]

theorem alookup_ainsert_ne {α : Type} (m : List (String × α)) {k k' : String}
    (v : α) (h : k' ≠ k) : alookup (ainsert m k v) k' = alookup m k' := by
  induction m with
  | nil => simp [ainsert, alookup, Ne.symm h]
  | cons q rest ih =>
    obtain ⟨k₀, v₀⟩ := q
    by_cases hk : k₀ = k
    · subst hk
      simp [ainsert, alookup, Ne.symm h]
    · simp [ainsert, hk, alookup, ih]

theorem alookup_append {α : Type} (m₁ m₂ : List (String × α)) (k : String) :
    alookup (m₁ ++ m₂) k =
      match alookup m₁ k with
      | some v => some v
      | none => alookup m₂ k := by
  induction m₁ with
  | nil => simp [alookup]
  | cons q rest ih =>
    obtain ⟨k', v⟩ := q
    by_cases hk : k' = k <;> simp [alookup, hk, ih]

theorem countKey_append {α : Type} (m₁ m₂ : List (String × α)) (k : String) :
    countKey (m₁ ++ m₂) k = countKey m₁ k + countKey m₂ k := by
  simp [countKey, List.filter_append]

theorem alookup_of_countKey_zero {α : Type} {m : List (String × α)} {k : String}
    (h : countKey m k = 0) : alookup m k = none := by
  have hnil : m.filter (fun p => p.1 = k) = [] := List.length_eq_zero.mp h
  rw [alookup_eq_none]
  rintro ⟨a, b⟩ hp hk
  have hmem : (a, b) ∈ m.filter (fun p => p.1 = k) :=
    List.mem_filter.mpr ⟨hp, by simpa using hk⟩
  rw [hnil] at hmem
  cases hmem

theorem countKey_map_keyfixed {α β : Type} (m : List (String × α))
    (f : String × α → String × β) (k : String) (hf : ∀ p, (f p).1 = p.1) :
    countKey (m.map f) k = countKey m k := by
  induction m with
  | nil => rfl
  | cons q rest ih =>
    by_cases hk : q.1 = k <;>
      simp [countKey, List.filter_cons, hf, hk] at ih ⊢ <;> simpa [countKey] using ih

theorem alookup_aupdate_self {α : Type} (m : List (String × α)) (k : String)
    (g : α → α) : alookup (aupdate m k g) k = (alookup m k).map g := by
  induction m with
  | nil => rfl
  | cons q rest ih =>
    obtain ⟨k', v⟩ := q
    by_cases hk : k' = k <;> simp [aupdate, alookup, hk, ih]

theorem alookup_aupdate_ne {α : Type} (m : List (String × α)) {k k' : String}
    (g : α → α) (h : k' ≠ k) :
    alookup (aupdate m k g) k' = alookup m k' := by
  induction m with
  | nil => rfl
  | cons q rest ih =>
    obtain ⟨k₀, v⟩ := q
    by_cases hk : k₀ = k
    · subst hk
      simp [aupdate, alookup, Ne.symm h, ih]
    · by_cases hk' : k₀ = k'
      · subst hk'
        simp [aupdate, alookup, hk]
      · simp [aupdate, alookup, hk, hk', ih]

theorem countKey_aupdate {α : Type} (m : List (String × α)) (k k' : String)
    (g : α → α) : countKey (aupdate m k g) k' = countKey m k' := by
  induction m with
  | nil => rfl
  | cons q rest ih =>
    obtain ⟨k₀, v⟩ := q
    simp only [countKey] at ih
    by_cases hk : k₀ = k
    · subst hk
      by_cases hk' : k₀ = k'
      · subst hk'
        simp [aupdate, countKey, List.filter_cons, ih]
      · simp [aupdate, countKey, List.filter_cons, hk', ih]
    · by_cases hk' : k₀ = k'
      · subst hk'
        simp [aupdate, countKey, List.filter_cons, hk, ih]
      · simp [aupdate, countKey, List.filter_cons, hk, hk', ih]

theorem alookup_filter_none {α : Type} {m : List (String × α)} {k : String}
    (f : String × α → Bool) (h : alookup m k = none) :
    alookup (m.filter f) k = none := by
  rw [alookup_eq_none] at h ⊢
  intro p hp
  exact h p (List.mem_of_mem_filter hp)

theorem alookup_aerase_self {α : Type} (m : List (String × α)) (k : String) :
    alookup (aerase m k) k = none := by
  induction m with
  | nil => rfl
  | cons q rest ih =>
    obtain ⟨k', v⟩ := q
    by_cases hk : k' = k <;> simp [aerase, alookup, hk, ih]

theorem filter_ne_length_lt {a : String} {l : List String} (h : a ∈ l) :
    (l.filter (fun s => s ≠ a)).length < l.length := by
  induction l with
  | nil => cases h
  | cons x rest ih =>
    by_cases hx : x = a
    · subst hx
      simp only [List.filter_cons, ne_eq, not_true_eq_false, decide_False,
        if_false, List.length_cons]
      exact Nat.lt_succ_of_le (List.length_filter_le _ _)
    · have hmem : a ∈ rest := by
        rcases List.mem_cons.mp h with h' | h'
        · exact absurd h'.symm hx
        · exact h'
      simp only [List.filter_cons, ne_eq, hx, not_false_eq_true, decide_True,
        if_true, List.length_cons]
      exact Nat.succ_lt_succ (ih hmem)

/-! ### Provider lemmas -/

namespace DaytonaSandboxProvider

theorem fastHit_of_live {st : ProviderState} {t sid : String}
    (h1 : alookup st.threadSandboxes t = some sid)
    (h2 : (alookup st.sandboxes sid).isSome = true) :
    fastHit st (some t) = some sid := by
  simp [fastHit, h1, h2]

theorem acquire_fast (st : ProviderState) {t sid : String}
    (userId : Option String) (maxPerUser now : Nat) (bc : Except String String)
    (h1 : alookup st.threadSandboxes t = some sid)
    (h2 : (alookup st.sandboxes sid).isSome = true) :
    acquire st (some t) userId maxPerUser now bc =
      { result := .reused sid
        state := { st with lastActivity := ainsert st.lastActivity sid now }
        backendCreateCalled := false
        quotaChecked := false } := by
  simp [acquire, fastHit_of_live h1 h2]

theorem proceedCreate_registered {st : ProviderState} {t : String}
    {userId : Option String} {now : Nat} {bc : Except String String} {q : Bool}
    {sid : String}
    (h : (proceedCreate st (some t) userId now bc q).result = .reused sid ∨
         (proceedCreate st (some t) userId now bc q).result = .created sid) :
    alookup (proceedCreate st (some t) userId now bc q).state.threadSandboxes t
      = some sid ∧
    (alookup (proceedCreate st (some t) userId now bc q).state.sandboxes sid).isSome
      = true := by
  cases bc with
  | error e => simp [proceedCreate] at h
  | ok s =>
    simp only [proceedCreate] at h ⊢
    rcases h with h | h
    · exact absurd h (by simp)
    · have hs : s = sid := by simpa using h
      subst hs
      constructor
      · simp [registerNew, alookup_ainsert_self]
      · simp [registerNew, alookup_ainsert_self]

theorem acquire_registered {st : ProviderState} {t : String}
    {userId : Option String} {maxPerUser now : Nat} {bc : Except String String}
    {sid : String}
    (h : (acquire st (some t) userId maxPerUser now bc).result = .reused sid ∨
         (acquire st (some t) userId maxPerUser now bc).result = .created sid) :
    alookup (acquire st (some t) userId maxPerUser now bc).state.threadSandboxes t
      = some sid ∧
    (alookup (acquire st (some t) userId maxPerUser now bc).state.sandboxes sid).isSome
      = true := by
  cases hf : fastHit st (some t) with
  | some sid' =>
    have hth : alookup st.threadSandboxes t = some sid' := by
      simp only [fastHit] at hf
      rcases hth : alookup st.threadSandboxes t with _ | s
      · simp [hth] at hf
      · simp only [hth] at hf
        by_cases hl : (alookup st.sandboxes s).isSome = true <;> simp [hl] at hf
        exact congrArg some hf
    have hlive : (alookup st.sandboxes sid').isSome = true := by
      simp only [fastHit, hth] at hf
      by_cases hl : (alookup st.sandboxes sid').isSome = true
      · exact hl
      · simp [hl] at hf
    simp only [acquire, hf] at h ⊢
    have hsid : sid' = sid := by
      rcases h with h | h
      · simpa using h
      · exact absurd h (by simp)
    subst hsid
    exact ⟨hth, hlive⟩
  | none =>
    simp only [acquire, hf] at h ⊢
    cases userId with
    | none => exact proceedCreate_registered h
    | some uid =>
      by_cases hm : 0 < maxPerUser
      · by_cases hq : maxPerUser ≤ userCount st uid
        · simp only [if_pos hm, if_pos hq] at h
          rcases h with h | h <;> simp at h
        · simp only [if_pos hm, if_neg hq] at h ⊢
          exact proceedCreate_registered h
      · simp only [if_neg hm] at h ⊢
        exact proceedCreate_registered h

end DaytonaSandboxProvider

namespace DaytonaSandboxProvider

/-- C2: a thread with a registered live sandbox always reuses it: same id as
previously registered, `last_activity` refreshed, no quota check, no backend
create — regardless of the user's quota situation; consequently a second
`acquire` right after a first one that returned a sandbox for the thread
reuses exactly that sandbox. -/
theorem claim2_thread_affinity_reuse
    (st : ProviderState) (t : String) (userId : Option String)
    (maxPerUser now : Nat) (bc : Except String String) (sid : String) :
    (alookup st.threadSandboxes t = some sid →
     (alookup st.sandboxes sid).isSome = true →
     acquire st (some t) userId maxPerUser now bc =
       { result := .reused sid
         state := { st with lastActivity := ainsert st.lastActivity sid now }
         backendCreateCalled := false
         quotaChecked := false }) ∧
    (∀ (userId₂ : Option String) (maxPerUser₂ now₂ : Nat)
       (bc₂ : Except String String),
      ((acquire st (some t) userId maxPerUser now bc).result = .reused sid ∨
       (acquire st (some t) userId maxPerUser now bc).result = .created sid) →
      acquire (acquire st (some t) userId maxPerUser now bc).state (some t)
          userId₂ maxPerUser₂ now₂ bc₂ =
        { result := .reused sid
          state := { (acquire st (some t) userId maxPerUser now bc).state with
                     lastActivity :=
                       ainsert (acquire st (some t) userId maxPerUser now bc).state.lastActivity
                         sid now₂ }
          backendCreateCalled := false
          quotaChecked := false }) := by
  constructor
  · intro h1 h2
    exact acquire_fast st userId maxPerUser now bc h1 h2
  · intro userId₂ maxPerUser₂ now₂ bc₂ h
    obtain ⟨h1, h2⟩ := acquire_registered h
    exact acquire_fast _ userId₂ maxPerUser₂ now₂ bc₂ h1 h2

/-- Witness for C2 at a concrete pool: thread `t1` maps to live sandbox `A`;
an `acquire` with a full quota (`maxPerUser = 1`, user already at 1) still
reuses `A` with no quota check and no backend call. -/
theorem claim2_witness :
    acquire ⟨[("A", 0)], [("t1", "A")], [("A", 7)], [("u1", ["A"])]⟩
        (some "t1") (some "u1") 1 99 (.ok "B") =
      { result := .reused "A"
        state := ⟨[("A", 0)], [("t1", "A")], [("A", 99)], [("u1", ["A"])]⟩
        backendCreateCalled := false
        quotaChecked := false } :=
  (claim2_thread_affinity_reuse
      ⟨[("A", 0)], [("t1", "A")], [("A", 7)], [("u1", ["A"])]⟩
      "t1" (some "u1") 1 99 (.ok "B") "A").1 (by decide) (by decide)

end DaytonaSandboxProvider

namespace DaytonaSandboxProvider

theorem mem_releaseUserSets {m : List (String × List String)} {sid : String}
    {p : String × List String} (hp : p ∈ releaseUserSets m sid) : sid ∉ p.2 := by
  induction m with
  | nil => cases hp
  | cons q rest ih =>
    obtain ⟨uid, sids⟩ := q
    simp only [releaseUserSets] at hp
    by_cases he : (sids.filter (fun s => s ≠ sid)).isEmpty
    · rw [if_pos he] at hp
      exact ih hp
    · rw [if_neg he] at hp
      rcases List.mem_cons.mp hp with h | h
      · subst h
        intro hmem
        have h2 := (List.mem_filter.mp hmem).2
        simp at h2
      · exact ih h

theorem mem_keys_releaseUserSets {m : List (String × List String)} {sid : String}
    {p : String × List String} (hp : p ∈ releaseUserSets m sid) :
    p.1 ∈ akeys m := by
  induction m with
  | nil => cases hp
  | cons q rest ih =>
    obtain ⟨uid, sids⟩ := q
    simp only [releaseUserSets] at hp
    by_cases he : (sids.filter (fun s => s ≠ sid)).isEmpty
    · rw [if_pos he] at hp
      exact List.mem_cons_of_mem _ (ih hp)
    · rw [if_neg he] at hp
      rcases List.mem_cons.mp hp with h | h
      · subst h
        exact List.mem_cons_self _ _
      · exact List.mem_cons_of_mem _ (ih h)

theorem releaseUserSets_id {m : List (String × List String)} {sid : String}
    (hno : ∀ p ∈ m, sid ∉ p.2) (hne : ∀ p ∈ m, p.2.isEmpty = false) :
    releaseUserSets m sid = m := by
  induction m with
  | nil => rfl
  | cons q rest ih =>
    obtain ⟨uid, sids⟩ := q
    have hfil : sids.filter (fun s => s ≠ sid) = sids := by
      rw [List.filter_eq_self]
      intro s hs
      simp only [ne_eq, decide_eq_true_eq]
      intro heq
      exact hno (uid, sids) (List.mem_cons_self _ _) (heq ▸ hs)
    have hne' : sids.isEmpty = false := hne (uid, sids) (List.mem_cons_self _ _)
    have htail := ih (fun p hp => hno p (List.mem_cons_of_mem _ hp))
      (fun p hp => hne p (List.mem_cons_of_mem _ hp))
    simp only [releaseUserSets, hfil, hne']
    rw [if_neg (by simp), htail]

/-- C5: releasing a live sandbox clears it from the live map, from every
ThreadAffinity entry, from LastActivity, and from every UserQuota set; the
backend delete is attempted, but its outcome never influences the local
state (failures are swallowed); afterwards `get` returns `none`. -/
theorem claim5_release_clears_state
    (st : ProviderState) (sid : String) (d : Bool) (now : Nat)
    (hlive : (alookup st.sandboxes sid).isSome = true) :
    alookup (release st sid d).1.sandboxes sid = none ∧
    (∀ p ∈ (release st sid d).1.threadSandboxes, p.2 ≠ sid) ∧
    alookup (release st sid d).1.lastActivity sid = none ∧
    (∀ p ∈ (release st sid d).1.userSandboxes, sid ∉ p.2) ∧
    (release st sid d).2 = true ∧
    (release st sid true).1 = (release st sid false).1 ∧
    (get (release st sid d).1 sid now).1 = none := by
  refine ⟨alookup_aerase_self _ _, ?_, alookup_aerase_self _ _, ?_, ?_, rfl, ?_⟩
  · intro p hp
    have h := (List.mem_filter.mp hp).2
    simpa using h
  · intro p hp
    exact mem_releaseUserSets hp
  · simp [release, hlive]
  · have h0 : alookup (release st sid d).1.sandboxes sid = none :=
      alookup_aerase_self _ _
    simp [get, h0]

/-- Witness for C5: the scenario of the spec — after `release("A")` on a
pool holding `A` for thread `t1` and user `u1`, every trace of `A` is gone,
the delete was attempted, and `get("A")` finds nothing. -/
theorem claim5_witness :
    alookup (release ⟨[("A", 0)], [("t1", "A")], [("A", 7)], [("u1", ["A"])]⟩
        "A" false).1.sandboxes "A" = none ∧
    (∀ p ∈ (release ⟨[("A", 0)], [("t1", "A")], [("A", 7)], [("u1", ["A"])]⟩
        "A" false).1.threadSandboxes, p.2 ≠ "A") ∧
    alookup (release ⟨[("A", 0)], [("t1", "A")], [("A", 7)], [("u1", ["A"])]⟩
        "A" false).1.lastActivity "A" = none ∧
    (∀ p ∈ (release ⟨[("A", 0)], [("t1", "A")], [("A", 7)], [("u1", ["A"])]⟩
        "A" false).1.userSandboxes, "A" ∉ p.2) ∧
    (release ⟨[("A", 0)], [("t1", "A")], [("A", 7)], [("u1", ["A"])]⟩
        "A" false).2 = true ∧
    (release ⟨[("A", 0)], [("t1", "A")], [("A", 7)], [("u1", ["A"])]⟩
        "A" true).1 =
      (release ⟨[("A", 0)], [("t1", "A")], [("A", 7)], [("u1", ["A"])]⟩
        "A" false).1 ∧
    (get (release ⟨[("A", 0)], [("t1", "A")], [("A", 7)], [("u1", ["A"])]⟩
        "A" false).1 "A" 123).1 = none :=
  claim5_release_clears_state
    ⟨[("A", 0)], [("t1", "A")], [("A", 7)], [("u1", ["A"])]⟩ "A" false 123
    (by decide)

/-- C10: releasing an id that is not in the live-sandbox map is a total
no-op on a well-formed pool: the state (all four maps) is returned
unchanged and the backend delete is not attempted. -/
theorem claim10_release_unknown_noop
    (st : ProviderState) (sid : String) (d : Bool)
    (hwf : WF st) (habs : alookup st.sandboxes sid = none) :
    release st sid d = (st, false) := by
  have h1 : aerase st.sandboxes sid = st.sandboxes := aerase_of_lookup_none habs
  have h2 : st.threadSandboxes.filter (fun p => p.2 ≠ sid) = st.threadSandboxes := by
    rw [List.filter_eq_self]
    intro p hp
    have hlive := hwf.threadLive p hp
    simp only [ne_eq, decide_eq_true_eq]
    intro heq
    rw [heq, habs] at hlive
    simp at hlive
  have h3 : aerase st.lastActivity sid = st.lastActivity := by
    apply aerase_of_lookup_none
    rw [alookup_eq_none]
    intro p hp heq
    have hlive := hwf.activityLive p hp
    rw [heq, habs] at hlive
    simp at hlive
  have h4 : releaseUserSets st.userSandboxes sid = st.userSandboxes := by
    apply releaseUserSets_id
    · intro p hp hmem
      have hlive := hwf.userLive p hp sid hmem
      rw [habs] at hlive
      simp at hlive
    · intro p hp
      exact hwf.userNonempty p hp
  show ({ sandboxes := aerase st.sandboxes sid
          threadSandboxes := st.threadSandboxes.filter (fun p => p.2 ≠ sid)
          lastActivity := aerase st.lastActivity sid
          userSandboxes := releaseUserSets st.userSandboxes sid : ProviderState },
        (alookup st.sandboxes sid).isSome) = (st, false)
  rw [h1, h2, h3, h4, habs]
  rfl

/-- Witness for C10: releasing unknown id `B` on a well-formed one-sandbox
pool returns the pool unchanged with no backend delete attempted. -/
theorem claim10_witness :
    release ⟨[("A", 0)], [("t1", "A")], [("A", 7)], [("u1", ["A"])]⟩ "B" true =
      (⟨[("A", 0)], [("t1", "A")], [("A", 7)], [("u1", ["A"])]⟩, false) :=
  claim10_release_unknown_noop
    ⟨[("A", 0)], [("t1", "A")], [("A", 7)], [("u1", ["A"])]⟩ "B" true
    ⟨by decide, by decide, by decide, by decide,
     by decide, by decide, by decide, by decide⟩
    (by decide)

end DaytonaSandboxProvider

namespace DaytonaSandboxProvider

theorem userCount_releaseUserSets_lt {m : List (String × List String)}
    {uid sid : String} (hnodup : (akeys m).Nodup)
    (hmem : sid ∈ (alookup m uid).getD []) :
    ((alookup (releaseUserSets m sid) uid).getD []).length <
      ((alookup m uid).getD []).length := by
  induction m with
  | nil => simp [alookup] at hmem
  | cons q rest ih =>
    obtain ⟨k, v⟩ := q
    have hcons : (k :: akeys rest).Nodup := hnodup
    obtain ⟨hknot, hrest⟩ := List.nodup_cons.mp hcons
    by_cases hk : k = uid
    · subst hk
      have hv : sid ∈ v := by simpa [alookup] using hmem
      have hR : (alookup ((k, v) :: rest) k).getD [] = v := by simp [alookup]
      rw [hR]
      by_cases he : (v.filter (fun s => s ≠ sid)).isEmpty
      · have htail : alookup (releaseUserSets rest sid) k = none := by
          rw [alookup_eq_none]
          intro p hp heq
          exact hknot (heq ▸ mem_keys_releaseUserSets hp)
        have hred : releaseUserSets ((k, v) :: rest) sid = releaseUserSets rest sid := by
          simp only [releaseUserSets]
          rw [if_pos he]
        rw [hred, htail]
        simp only [Option.getD_none, List.length_nil]
        exact List.length_pos.mpr (by
          intro hnil
          rw [hnil] at hv
          cases hv)
      · have hred : releaseUserSets ((k, v) :: rest) sid =
            (k, v.filter (fun s => s ≠ sid)) :: releaseUserSets rest sid := by
          simp only [releaseUserSets]
          rw [if_neg he]
        rw [hred]
        have hL : alookup ((k, v.filter (fun s => s ≠ sid)) ::
            releaseUserSets rest sid) k = some (v.filter (fun s => s ≠ sid)) := by
          simp [alookup]
        rw [hL]
        simpa using filter_ne_length_lt hv
    · have hmem' : sid ∈ (alookup rest uid).getD [] := by
        simpa [alookup, hk] using hmem
      have ihr := ih hrest hmem'
      have hR : alookup ((k, v) :: rest) uid = alookup rest uid := by
        simp [alookup, hk]
      rw [hR]
      by_cases he : (v.filter (fun s => s ≠ sid)).isEmpty
      · have hred : releaseUserSets ((k, v) :: rest) sid = releaseUserSets rest sid := by
          simp only [releaseUserSets]
          rw [if_pos he]
        rw [hred]
        exact ihr
      · have hred : releaseUserSets ((k, v) :: rest) sid =
            (k, v.filter (fun s => s ≠ sid)) :: releaseUserSets rest sid := by
          simp only [releaseUserSets]
          rw [if_neg he]
        rw [hred]
        have hL : alookup ((k, v.filter (fun s => s ≠ sid)) ::
            releaseUserSets rest sid) uid = alookup (releaseUserSets rest sid) uid := by
          simp [alookup, hk]
        rw [hL]
        exact ihr

theorem userCount_release_lt {st : ProviderState} {uid sid : String} (d : Bool)
    (hnodup : (akeys st.userSandboxes).Nodup)
    (hmem : sid ∈ (alookup st.userSandboxes uid).getD []) :
    userCount (release st sid d).1 uid < userCount st uid :=
  userCount_releaseUserSets_lt hnodup hmem

/-- C3: (a) with quota enabled, an `acquire` for a fresh thread by a user at
or over the limit fails with the quota error before any backend call and
leaves the state untouched; (b) after releasing one of the user's sandboxes,
a fresh-thread `acquire` for that user succeeds (the backend is called and a
new sandbox is created); (c) with `max_sandboxes_per_user = 0` the quota
check is never performed. -/
theorem claim3_quota_enforcement
    (st : ProviderState) (t uid : String) (maxPerUser now : Nat)
    (bc : Except String String) (sid : String) :
    (alookup st.threadSandboxes t = none →
     0 < maxPerUser → maxPerUser ≤ userCount st uid →
     acquire st (some t) (some uid) maxPerUser now bc =
       { result := .quotaExceeded uid, state := st
         backendCreateCalled := false, quotaChecked := true }) ∧
    (∀ (d : Bool) (t' newId : String) (now₂ : Nat),
      (akeys st.userSandboxes).Nodup →
      userCount st uid = maxPerUser →
      sid ∈ (alookup st.userSandboxes uid).getD [] →
      alookup st.threadSandboxes t' = none →
      (acquire (release st sid d).1 (some t') (some uid) maxPerUser now₂
          (.ok newId)).result = .created newId ∧
      (acquire (release st sid d).1 (some t') (some uid) maxPerUser now₂
          (.ok newId)).backendCreateCalled = true) ∧
    (∀ (tid uid' : Option String) (bc' : Except String String),
      (acquire st tid uid' 0 now bc').quotaChecked = false) := by
  refine ⟨?_, ?_, ?_⟩
  · intro hth hm hq
    have hfast : fastHit st (some t) = none := by simp [fastHit, hth]
    simp [acquire, hfast, hm, hq]
  · intro d t' newId now₂ hnodup hcnt hmem hth'
    have hth'' : alookup (release st sid d).1.threadSandboxes t' = none :=
      alookup_filter_none _ hth'
    have hfast : fastHit (release st sid d).1 (some t') = none := by
      simp [fastHit, hth'']
    have hcount : userCount (release st sid d).1 uid < maxPerUser := by
      rw [← hcnt]
      exact userCount_release_lt d hnodup hmem
    have hnle : ¬ maxPerUser ≤ userCount (release st sid d).1 uid := by omega
    by_cases hm : 0 < maxPerUser
    · simp [acquire, hfast, hm, hnle, proceedCreate]
    · simp [acquire, hfast, hm, proceedCreate]
  · intro tid uid' bc'
    cases hf : fastHit st tid with
    | some s => simp [acquire, hf]
    | none =>
      cases uid' with
      | none => cases bc' <;> simp [acquire, hf, proceedCreate]
      | some u => cases bc' <;> simp [acquire, hf, proceedCreate]

/-- Witness for C3 on a concrete pool at quota limit 1: user `u1` holds
`A`; a fresh-thread acquire is rejected with no backend call; after
releasing `A` a fresh-thread acquire creates `B`; with the quota disabled
no check happens. -/
theorem claim3_witness :
    (acquire ⟨[("A", 0)], [("t1", "A")], [("A", 7)], [("u1", ["A"])]⟩
        (some "t2") (some "u1") 1 50 (.ok "B") =
      { result := .quotaExceeded "u1"
        state := ⟨[("A", 0)], [("t1", "A")], [("A", 7)], [("u1", ["A"])]⟩
        backendCreateCalled := false, quotaChecked := true }) ∧
    ((acquire (release ⟨[("A", 0)], [("t1", "A")], [("A", 7)], [("u1", ["A"])]⟩
          "A" true).1 (some "t3") (some "u1") 1 60 (.ok "B")).result =
        .created "B" ∧
     (acquire (release ⟨[("A", 0)], [("t1", "A")], [("A", 7)], [("u1", ["A"])]⟩
          "A" true).1 (some "t3") (some "u1") 1 60 (.ok "B")).backendCreateCalled =
        true) ∧
    (acquire ⟨[("A", 0)], [("t1", "A")], [("A", 7)], [("u1", ["A"])]⟩
        none none 0 50 (.ok "C")).quotaChecked = false :=
  ⟨(claim3_quota_enforcement
      ⟨[("A", 0)], [("t1", "A")], [("A", 7)], [("u1", ["A"])]⟩
      "t2" "u1" 1 50 (.ok "B") "A").1 (by decide) (by decide) (by decide),
   (claim3_quota_enforcement
      ⟨[("A", 0)], [("t1", "A")], [("A", 7)], [("u1", ["A"])]⟩
      "t2" "u1" 1 50 (.ok "B") "A").2.1 true "t3" "B" 60
      (by decide) (by decide) (by decide) (by decide),
   (claim3_quota_enforcement
      ⟨[("A", 0)], [("t1", "A")], [("A", 7)], [("u1", ["A"])]⟩
      "t2" "u1" 1 50 (.ok "B") "A").2.2 none none (.ok "C")⟩

end DaytonaSandboxProvider

namespace DaytonaSandboxProvider

/-- C4 counterexample: the claim says a configured `idle_timeout ≤ 0`
disables the sweep entirely, but at the concrete configured value `0` the
`or`-coercion in `_load_config` replaces the falsy `0` by the default
`DEFAULT_AUTO_STOP * 60 = 900`, which is positive, so `__init__` starts the
idle checker anyway. -/
theorem claim4_counterexample :
    resolveIdleTimeout (some 0) = 900 ∧ idleCheckerStarted (some 0) = true :=
  ⟨rfl, rfl⟩

/-- C4 amended: the sweep is started exactly when the configured value is
missing (default 900 s applies) or `0 ≤ v`: a configured `0` is coerced to
the positive default and the sweep still runs, so the sweep is disabled only
for strictly negative configured values. -/
theorem claim4_amended_idle_gate :
    (∀ v : Int, idleCheckerStarted (some v) = decide (0 ≤ v)) ∧
    idleCheckerStarted none = true := by
  constructor
  · intro v
    by_cases h0 : v = 0
    · subst h0
      rfl
    · simp only [idleCheckerStarted, resolveIdleTimeout, if_neg h0]
      rw [decide_eq_decide]
      omega
  · rfl

end DaytonaSandboxProvider

/-! ### Orchestrator lemmas -/

namespace Provisioner

theorem pollNodePort_none {observe : Nat → Option Nat}
    (h : ∀ i, truthy (observe i) = false) :
    ∀ (i fuel : Nat), pollNodePort observe i fuel = none := by
  intro i fuel
  induction fuel generalizing i with
  | zero => rfl
  | succ n ih => simp [pollNodePort, h i, ih]

theorem pollNodePort_pos {observe : Nat → Option Nat} {np : Nat} :
    ∀ {i fuel : Nat}, pollNodePort observe i fuel = some np → np ≠ 0 := by
  intro i fuel
  induction fuel generalizing i with
  | zero => intro h; cases h
  | succ n ih =>
    intro h
    simp only [pollNodePort] at h
    by_cases ht : truthy (observe i) = true
    · rw [if_pos ht] at h
      rw [h] at ht
      simpa [truthy] using ht
    · rw [if_neg ht] at h
      exact ih h

theorem list_sandboxes_inv {st : ClusterState} {r : SandboxResponse}
    (hr : r ∈ list_sandboxes st) :
    ∃ q ∈ st.services, q.2.sandboxIdLabel = some r.sandbox_id ∧
      ∃ np, findHttpNodePort q.2.ports = some np ∧ np ≠ 0 := by
  simp only [list_sandboxes, List.mem_filterMap] at hr
  obtain ⟨q, hq, hf⟩ := hr
  refine ⟨q, hq, ?_⟩
  rcases hlab : q.2.sandboxIdLabel with _ | s
  · rw [hlab] at hf
    cases hf
  · rw [hlab] at hf
    rcases hnp : findHttpNodePort q.2.ports with _ | np
    · rw [hnp] at hf
      cases hf
    · rw [hnp] at hf
      change (if np ≠ 0 then
          some (⟨s, sandbox_url np, get_pod_phase st s⟩ : SandboxResponse)
        else none) = some r at hf
      by_cases h0 : np ≠ 0
      · rw [if_pos h0] at hf
        obtain rfl := Option.some.inj hf
        exact ⟨rfl, np, rfl, h0⟩
      · rw [if_neg h0] at hf
        cases hf

end Provisioner

namespace Provisioner

theorem create_sandbox_timeout {st : ClusterState} {sid tid : String}
    {uid : Option String} {env : CreateEnv}
    (hsvc : alookup st.services (svc_name sid) = none)
    (hpod : env.podCreate = .ok) (hsvcc : env.svcCreate = .ok)
    (hpoll : pollNodePort env.observe 0 20 = none) :
    create_sandbox st sid tid uid env =
      (.error ⟨500, "NodePort was not allocated in time"⟩,
       ⟨ainsert st.pods (pod_name sid) (build_pod tid uid),
        ainsert st.services (svc_name sid) (build_service sid)⟩) := by
  have hfast : get_node_port st sid = none := by
    simp [get_node_port, hsvc]
  simp [create_sandbox, hfast, truthy, hpod, hsvcc, hpoll]

theorem create_sandbox_success {st : ClusterState} {sid tid : String}
    {uid : Option String} {env : CreateEnv} {p : Nat}
    (hsvc : alookup st.services (svc_name sid) = none)
    (hpod : env.podCreate = .ok) (hsvcc : env.svcCreate = .ok)
    (hpoll : pollNodePort env.observe 0 20 = some p) :
    create_sandbox st sid tid uid env =
      (.ok ⟨sid, sandbox_url p,
          get_pod_phase (setSvcNodePort
            ⟨ainsert st.pods (pod_name sid) (build_pod tid uid),
             ainsert st.services (svc_name sid) (build_service sid)⟩ sid p) sid⟩,
       setSvcNodePort
         ⟨ainsert st.pods (pod_name sid) (build_pod tid uid),
          ainsert st.services (svc_name sid) (build_service sid)⟩ sid p) := by
  have hfast : get_node_port st sid = none := by
    simp [get_node_port, hsvc]
  simp [create_sandbox, hfast, truthy, hpod, hsvcc, hpoll]

end Provisioner

namespace Provisioner

/-- C1 counterexample: on an empty cluster, a `create_sandbox` whose Pod and
Service creations succeed but whose NodePort is never allocated returns the
allocation-timeout 500 after the 20-attempt budget — yet the just-created
Pod `sandbox-s1` is still present afterwards: the claimed rollback of the
workload unit does not happen on allocation timeout. -/
theorem claim1_counterexample :
    (create_sandbox ⟨[], []⟩ "s1" "t1" none
        ⟨.ok, .ok, true, fun _ => none⟩).1 =
      .error ⟨500, "NodePort was not allocated in time"⟩ ∧
    alookup (create_sandbox ⟨[], []⟩ "s1" "t1" none
        ⟨.ok, .ok, true, fun _ => none⟩).2.pods (pod_name "s1") =
      some (build_pod "t1" none) := by
  constructor
  · rfl
  · rfl

/-- C1 amended: when the port-allocation poll never succeeds, `create`
returns the allocation-timeout 500 after the full 20-attempt budget, but the
just-created workload unit (Pod) is NOT deleted — rollback happens only when
the exposure-unit creation itself fails; still, no sandbox under this id
becomes reachable via `list()`, because the exposure unit never obtained an
allocated port (`list` skips Services without one). -/
theorem claim1_amended_alloc_timeout
    (st : ClusterState) (sid tid : String) (uid : Option String)
    (env : CreateEnv)
    (hsvc : alookup st.services (svc_name sid) = none)
    (hpod : env.podCreate = .ok) (hsvcc : env.svcCreate = .ok)
    (hobs : ∀ i, truthy (env.observe i) = false)
    (hlab : ∀ p ∈ st.services, p.2.sandboxIdLabel ≠ some sid) :
    (create_sandbox st sid tid uid env).1 =
      .error ⟨500, "NodePort was not allocated in time"⟩ ∧
    alookup (create_sandbox st sid tid uid env).2.pods (pod_name sid) =
      some (build_pod tid uid) ∧
    (∀ r ∈ list_sandboxes (create_sandbox st sid tid uid env).2,
      r.sandbox_id ≠ sid) := by
  have hpoll : pollNodePort env.observe 0 20 = none := pollNodePort_none hobs 0 20
  have hstep := @create_sandbox_timeout st sid tid uid env hsvc hpod hsvcc hpoll
  refine ⟨by rw [hstep], ?_, ?_⟩
  · rw [hstep]
    exact alookup_ainsert_self _ _ _
  · intro r hr hid
    rw [hstep] at hr
    obtain ⟨q, hq, hqlab, np, hnp, hnp0⟩ := list_sandboxes_inv hr
    rw [ainsert_of_lookup_none _ hsvc] at hq
    rcases List.mem_append.mp hq with hold | hnew
    · exact hlab q hold (hid ▸ hqlab)
    · have hqe : q = (svc_name sid, build_service sid) := by
        simpa using hnew
      rw [hqe] at hnp
      simp [build_service, findHttpNodePort] at hnp
  
end Provisioner

namespace Provisioner

/-- Witness for the amended C1 on the empty cluster: timeout error, Pod
still present, `list()` shows nothing for `s1`. -/
theorem claim1_witness :
    (create_sandbox ⟨[], []⟩ "s1" "t1" none
        ⟨.ok, .ok, true, fun _ => none⟩).1 =
      .error ⟨500, "NodePort was not allocated in time"⟩ ∧
    alookup (create_sandbox ⟨[], []⟩ "s1" "t1" none
        ⟨.ok, .ok, true, fun _ => none⟩).2.pods (pod_name "s1") =
      some (build_pod "t1" none) ∧
    (∀ r ∈ list_sandboxes (create_sandbox ⟨[], []⟩ "s1" "t1" none
        ⟨.ok, .ok, true, fun _ => none⟩).2, r.sandbox_id ≠ "s1") :=
  claim1_amended_alloc_timeout ⟨[], []⟩ "s1" "t1" none
    ⟨.ok, .ok, true, fun _ => none⟩ (by decide) rfl rfl
    (fun _ => rfl) (by simp)

end Provisioner

namespace Provisioner

/-- C6: `create_sandbox` is idempotent.  A first call on a cluster with no
resources for `sid` (Pod and Service creations succeeding and the NodePort
poll yielding `p`) returns `{sid, url(p), status}`; any second call for the
same `sid` takes the fast path: it returns the same id and the identical
URL, creates nothing, and leaves the cluster state untouched; exactly one
workload+exposure pair for `sid` exists afterwards. -/
theorem claim6_create_idempotent
    (st : ClusterState) (sid tid : String) (uid : Option String)
    (env : CreateEnv) (p : Nat)
    (hpods : countKey st.pods (pod_name sid) = 0)
    (hsvcs : countKey st.services (svc_name sid) = 0)
    (hpod : env.podCreate = .ok) (hsvcc : env.svcCreate = .ok)
    (hpoll : pollNodePort env.observe 0 20 = some p) :
    (create_sandbox st sid tid uid env).1 =
      .ok ⟨sid, sandbox_url p,
        get_pod_phase (create_sandbox st sid tid uid env).2 sid⟩ ∧
    (∀ (tid₂ : String) (uid₂ : Option String) (env₂ : CreateEnv),
      create_sandbox (create_sandbox st sid tid uid env).2 sid tid₂ uid₂ env₂ =
        ((create_sandbox st sid tid uid env).1,
         (create_sandbox st sid tid uid env).2)) ∧
    countKey (create_sandbox st sid tid uid env).2.pods (pod_name sid) = 1 ∧
    countKey (create_sandbox st sid tid uid env).2.services (svc_name sid) = 1 := by
  have hsvc : alookup st.services (svc_name sid) = none :=
    alookup_of_countKey_zero hsvcs
  have hpodn : alookup st.pods (pod_name sid) = none :=
    alookup_of_countKey_zero hpods
  have hp0 : p ≠ 0 := pollNodePort_pos hpoll
  have hstep := @create_sandbox_success st sid tid uid env p hsvc hpod hsvcc hpoll
  have hlook : get_node_port (create_sandbox st sid tid uid env).2 sid = some p := by
    rw [hstep]
    simp [get_node_port, setSvcNodePort, alookup_aupdate_self, alookup_ainsert_self,
      build_service, findHttpNodePort]
  refine ⟨?_, ?_, ?_, ?_⟩
  · rw [hstep]
  · intro tid₂ uid₂ env₂
    rw [hstep] at hlook ⊢
    simp [create_sandbox, hlook, truthy, hp0]
  · rw [hstep]
    have hnil : st.pods.filter (fun q => q.1 = pod_name sid) = [] :=
      List.length_eq_zero.mp hpods
    simp [setSvcNodePort, ainsert_of_lookup_none _ hpodn, countKey_append,
      hpods, countKey]
    intro a b hab heq
    have hmem : (a, b) ∈ st.pods.filter (fun q => q.1 = pod_name sid) :=
      List.mem_filter.mpr ⟨hab, by simpa using heq⟩
    rw [hnil] at hmem
    cases hmem
  · rw [hstep]
    show countKey (aupdate (ainsert st.services (svc_name sid) (build_service sid))
        (svc_name sid) _) (svc_name sid) = 1
    rw [countKey_aupdate, ainsert_of_lookup_none _ hsvc, countKey_append, hsvcs]
    simp [countKey]

/-- Witness for C6 on the empty cluster with the port allocated at the
fourth poll attempt. -/
theorem claim6_witness :
    (create_sandbox ⟨[], []⟩ "s1" "t1" none
        ⟨.ok, .ok, true, fun i => if 3 ≤ i then some 30100 else none⟩).1 =
      .ok ⟨"s1", sandbox_url 30100,
        get_pod_phase (create_sandbox ⟨[], []⟩ "s1" "t1" none
          ⟨.ok, .ok, true, fun i => if 3 ≤ i then some 30100 else none⟩).2 "s1"⟩ ∧
    (∀ (tid₂ : String) (uid₂ : Option String) (env₂ : CreateEnv),
      create_sandbox (create_sandbox ⟨[], []⟩ "s1" "t1" none
          ⟨.ok, .ok, true, fun i => if 3 ≤ i then some 30100 else none⟩).2
          "s1" tid₂ uid₂ env₂ =
        ((create_sandbox ⟨[], []⟩ "s1" "t1" none
            ⟨.ok, .ok, true, fun i => if 3 ≤ i then some 30100 else none⟩).1,
         (create_sandbox ⟨[], []⟩ "s1" "t1" none
            ⟨.ok, .ok, true, fun i => if 3 ≤ i then some 30100 else none⟩).2)) ∧
    countKey (create_sandbox ⟨[], []⟩ "s1" "t1" none
        ⟨.ok, .ok, true, fun i => if 3 ≤ i then some 30100 else none⟩).2.pods
      (pod_name "s1") = 1 ∧
    countKey (create_sandbox ⟨[], []⟩ "s1" "t1" none
        ⟨.ok, .ok, true, fun i => if 3 ≤ i then some 30100 else none⟩).2.services
      (svc_name "s1") = 1 :=
  claim6_create_idempotent ⟨[], []⟩ "s1" "t1" none
    ⟨.ok, .ok, true, fun i => if 3 ≤ i then some 30100 else none⟩ 30100
    rfl rfl rfl rfl (by decide)

end Provisioner

namespace Provisioner

theorem string_append_assoc (a b c : String) : a ++ b ++ c = a ++ (b ++ c) := by
  obtain ⟨la⟩ := a
  obtain ⟨lb⟩ := b
  obtain ⟨lc⟩ := c
  show String.mk (la ++ lb ++ lc) = String.mk (la ++ (lb ++ lc))
  rw [List.append_assoc]

/-- C7: `destroy_sandbox` (a) tolerates a pre-deleted exposure unit — the
workload unit is still deleted and success is reported; (b) attempts the Pod
deletion even when the Service deletion failed, aggregating that failure;
(c) aggregates both failures into one 500; (d) tolerates both resources
being already absent; (e) tolerates an absent Pod after a successful
Service deletion. -/
theorem claim7_destroy_tolerates_and_aggregates
    (st : ClusterState) (sid : String) (svcDel : DelAttempt) (r₁ r₂ : String) :
    (alookup st.services (svc_name sid) = none →
     (alookup st.pods (pod_name sid)).isSome = true →
     destroy_sandbox st sid svcDel .ok =
       (.ok ⟨true, sid⟩, ⟨aerase st.pods (pod_name sid), st.services⟩)) ∧
    ((alookup st.services (svc_name sid)).isSome = true →
     (alookup st.pods (pod_name sid)).isSome = true →
     destroy_sandbox st sid (.failed r₁) .ok =
       (.error ⟨500, "Partial cleanup: " ++ ("service: " ++ r₁)⟩,
        ⟨aerase st.pods (pod_name sid), st.services⟩)) ∧
    ((alookup st.services (svc_name sid)).isSome = true →
     (alookup st.pods (pod_name sid)).isSome = true →
     destroy_sandbox st sid (.failed r₁) (.failed r₂) =
       (.error ⟨500,
          "Partial cleanup: " ++ ("service: " ++ r₁) ++ ", " ++ ("pod: " ++ r₂)⟩,
        st)) ∧
    (alookup st.services (svc_name sid) = none →
     alookup st.pods (pod_name sid) = none →
     destroy_sandbox st sid svcDel .ok = (.ok ⟨true, sid⟩, st)) ∧
    ((alookup st.services (svc_name sid)).isSome = true →
     alookup st.pods (pod_name sid) = none →
     destroy_sandbox st sid .ok .ok =
       (.ok ⟨true, sid⟩, ⟨st.pods, aerase st.services (svc_name sid)⟩)) := by
  refine ⟨?_, ?_, ?_, ?_, ?_⟩
  · intro hsvc hpod
    obtain ⟨pod, hpod'⟩ := Option.isSome_iff_exists.mp hpod
    simp [destroy_sandbox, hsvc, hpod']
  · intro hsvc hpod
    obtain ⟨svc, hsvc'⟩ := Option.isSome_iff_exists.mp hsvc
    obtain ⟨pod, hpod'⟩ := Option.isSome_iff_exists.mp hpod
    simp [destroy_sandbox, hsvc', hpod', joinComma]
  · intro hsvc hpod
    obtain ⟨svc, hsvc'⟩ := Option.isSome_iff_exists.mp hsvc
    obtain ⟨pod, hpod'⟩ := Option.isSome_iff_exists.mp hpod
    simp [destroy_sandbox, hsvc', hpod', joinComma, string_append_assoc]
  · intro hsvc hpod
    simp [destroy_sandbox, hsvc, hpod]
  · intro hsvc hpod
    obtain ⟨svc, hsvc'⟩ := Option.isSome_iff_exists.mp hsvc
    simp [destroy_sandbox, hsvc', hpod]

/-- Witness for C7 on a one-sandbox cluster and on the relevant degraded
variants of it. -/
theorem claim7_witness :
    (destroy_sandbox ⟨[("sandbox-s1", ⟨"t1", none, none⟩)], []⟩ "s1" .ok .ok =
      (.ok ⟨true, "s1"⟩, ⟨[], []⟩)) ∧
    (destroy_sandbox
        ⟨[("sandbox-s1", ⟨"t1", none, none⟩)],
         [("sandbox-s1-svc", ⟨some "s1", [⟨"http", 8080, some 30100⟩]⟩)]⟩
        "s1" (.failed "boom") .ok =
      (.error ⟨500, "Partial cleanup: " ++ ("service: " ++ "boom")⟩,
       ⟨[], [("sandbox-s1-svc", ⟨some "s1", [⟨"http", 8080, some 30100⟩]⟩)]⟩)) ∧
    (destroy_sandbox
        ⟨[("sandbox-s1", ⟨"t1", none, none⟩)],
         [("sandbox-s1-svc", ⟨some "s1", [⟨"http", 8080, some 30100⟩]⟩)]⟩
        "s1" (.failed "boom") (.failed "kaput") =
      (.error ⟨500,
         "Partial cleanup: " ++ ("service: " ++ "boom") ++ ", " ++ ("pod: " ++ "kaput")⟩,
       ⟨[("sandbox-s1", ⟨"t1", none, none⟩)],
        [("sandbox-s1-svc", ⟨some "s1", [⟨"http", 8080, some 30100⟩]⟩)]⟩)) :=
  ⟨(claim7_destroy_tolerates_and_aggregates
      ⟨[("sandbox-s1", ⟨"t1", none, none⟩)], []⟩ "s1" .ok "r" "r").1
      (by decide) (by decide),
   (claim7_destroy_tolerates_and_aggregates
      ⟨[("sandbox-s1", ⟨"t1", none, none⟩)],
       [("sandbox-s1-svc", ⟨some "s1", [⟨"http", 8080, some 30100⟩]⟩)]⟩
      "s1" .ok "boom" "kaput").2.1 (by decide) (by decide),
   (claim7_destroy_tolerates_and_aggregates
      ⟨[("sandbox-s1", ⟨"t1", none, none⟩)],
       [("sandbox-s1-svc", ⟨some "s1", [⟨"http", 8080, some 30100⟩]⟩)]⟩
      "s1" .ok "boom" "kaput").2.2.1 (by decide) (by decide)⟩

end Provisioner

namespace DaytonaSandbox

theorem isPrefixOf_append_self (l t : List Char) : l.isPrefixOf (l ++ t) = true := by
  induction l with
  | nil => simp [List.isPrefixOf]
  | cons c cs ih => simp [List.isPrefixOf, ih]

/-- C8: `execute_command` returns the captured output; a non-zero exit code
appends `"\nExit Code: N"`; empty resulting output is normalised to
`"(no output)"`; a raising remote call yields the `"Error: <detail>"`
sentinel instead of propagating. -/
theorem claim8_execute_command (e out : List Char) (n : Int) :
    execute_command (.error e) = "Error: ".toList ++ e ∧
    (n ≠ 0 → execute_command (.ok ⟨some out, n⟩) =
      out ++ "\nExit Code: ".toList ++ (toString n).toList) ∧
    (out ≠ [] → execute_command (.ok ⟨some out, 0⟩) = out) ∧
    execute_command (.ok ⟨some [], 0⟩) = "(no output)".toList ∧
    execute_command (.ok ⟨none, 0⟩) = "(no output)".toList := by
  refine ⟨rfl, ?_, ?_, rfl, rfl⟩
  · intro hn
    simp [execute_command, hn]
  · intro ho
    simp [execute_command, ho]

/-- Witness for C8 at concrete outputs and exit codes. -/
theorem claim8_witness :
    execute_command (.error "net down".toList) =
      "Error: ".toList ++ "net down".toList ∧
    execute_command (.ok ⟨some "hi".toList, 2⟩) =
      "hi".toList ++ "\nExit Code: ".toList ++ (toString (2 : Int)).toList ∧
    execute_command (.ok ⟨some "hi".toList, 0⟩) = "hi".toList ∧
    execute_command (.ok ⟨some [], 0⟩) = "(no output)".toList ∧
    execute_command (.ok ⟨none, 0⟩) = "(no output)".toList :=
  ⟨(claim8_execute_command "net down".toList "hi".toList 2).1,
   (claim8_execute_command "net down".toList "hi".toList 2).2.1 (by decide),
   (claim8_execute_command "net down".toList "hi".toList 2).2.2.1 (by decide),
   (claim8_execute_command "net down".toList "hi".toList 2).2.2.2.1,
   (claim8_execute_command "net down".toList "hi".toList 2).2.2.2.2⟩

/-- C9 counterexample: a file whose genuine content is `"Error: fake"` is
read back successfully (the read did *not* come back as an error sentinel),
yet `write_file(append=True)` still discards it — it uploads just the new
content instead of the concatenation — because the code tests only the
string prefix `"Error:"`.  This refutes the claim's "exactly when the read
itself came back as an error sentinel (and only then)". -/
theorem claim9_counterexample :
    read_file (.ok "Error: fake".toList) = "Error: fake".toList ∧
    write_file (.ok "Error: fake".toList) true "x".toList true = .ok "x".toList ∧
    "Error: fake".toList ++ "x".toList ≠ "x".toList :=
  ⟨rfl, rfl, by decide⟩

/-- C9 amended: in append mode the existing content is discarded exactly
when the string returned by the inner read starts with `"Error:"` — which
happens whenever the read failed (its sentinel always has that prefix), but
also for genuine file content carrying that prefix; otherwise existing and
new content are concatenated; upload (transport) failure raises rather than
returning a sentinel. -/
theorem claim9_amended_append_semantics
    (dl : Except (List Char) (List Char)) (content e existing : List Char) :
    write_file (.error e) true content true = .ok content ∧
    ("Error:".toList.isPrefixOf existing = true →
      write_file (.ok existing) true content true = .ok content) ∧
    ("Error:".toList.isPrefixOf existing = false →
      write_file (.ok existing) true content true = .ok (existing ++ content)) ∧
    write_file dl false content true = .error "upload failed".toList ∧
    write_file dl true content false = .ok content := by
  refine ⟨?_, ?_, ?_, rfl, rfl⟩
  · have hpre : "Error:".toList.isPrefixOf (read_file (.error e)) = true := by
      show "Error:".toList.isPrefixOf ("Error: ".toList ++ e) = true
      have hsplit : "Error: ".toList ++ e = "Error:".toList ++ (' ' :: e) := rfl
      rw [hsplit]
      exact isPrefixOf_append_self _ _
    simp only [write_file]
    rw [hpre]
    simp
  · intro hp
    simp only [write_file, read_file]
    rw [hp]
    simp
  · intro hp
    simp only [write_file, read_file]
    rw [hp]
    simp

/-- Witness for the amended C9: a failed read is ignored; genuine content
starting with `"Error:"` is also ignored; ordinary content is concatenated;
upload failure raises. -/
theorem claim9_witness :
    write_file (.error "oops".toList) true "x".toList true = .ok "x".toList ∧
    write_file (.ok "Error: real".toList) true "x".toList true = .ok "x".toList ∧
    write_file (.ok "data".toList) true "x".toList true =
      .ok ("data".toList ++ "x".toList) ∧
    write_file (.ok "data".toList) false "x".toList true =
      .error "upload failed".toList ∧
    write_file (.ok "data".toList) true "x".toList false = .ok "x".toList :=
  ⟨(claim9_amended_append_semantics (.ok "data".toList) "x".toList
      "oops".toList "data".toList).1,
   (claim9_amended_append_semantics (.ok "data".toList) "x".toList
      "oops".toList "Error: real".toList).2.1 (by decide),
   (claim9_amended_append_semantics (.ok "data".toList) "x".toList
      "oops".toList "data".toList).2.2.1 (by decide),
   (claim9_amended_append_semantics (.ok "data".toList) "x".toList
      "oops".toList "data".toList).2.2.2.1,
   (claim9_amended_append_semantics (.ok "data".toList) "x".toList
      "oops".toList "data".toList).2.2.2.2⟩

end DaytonaSandbox
